import Mathlib

/-
Verification of the vidlah AI Trading Overlay repository against its
natural-language specification.

Part 1 embeds the Electron shell code (src/electron/main.js and
src/electron/preload.js) and the configuration defaults (.env.example).
Part 2 models the capture-to-prediction pipeline components that the
specification describes (Region Capture loop, Pattern Engine, Fusion
Engine, Dispatcher); that pipeline is not present as code in the
repository, so those definitions are modelled from the spec.
-/

/-! ### Electron shell: screen capture IPC (src/electron/main.js) -/

/-- Region bounds (x, y, width, height) in screen pixel coordinates,
as passed to the capture IPC handlers. -/
structure Region where
  x : Int
  y : Int
  width : Int
  height : Int
deriving DecidableEq, Repr

/-- The record returned by `ipcMain.handle('capture-screen-region')` in
src/electron/main.js lines 77-85.  The handler body is
`return { success: true, region: region, timestamp: Date.now() }`:
these three fields are the whole record; there is no pixel data and no
error path. -/
structure CaptureResult where
  success : Bool
  region : Region
  timestamp : Nat
deriving DecidableEq, Repr

/-- Embedding of the `capture-screen-region` IPC handler
(src/electron/main.js lines 77-85).  `now` stands for `Date.now()`.
The handler unconditionally returns a success record. -/
def captureScreenRegion (region : Region) (now : Nat) : CaptureResult :=
  { success := true, region := region, timestamp := now }

/-- A screen rectangle as reported by Electron display objects. -/
structure Rect where
  x : Int
  y : Int
  width : Int
  height : Int
deriving DecidableEq, Repr

/-- The fields of an Electron `Display` object that
src/electron/main.js reads. -/
structure Display where
  id : Nat
  bounds : Rect
  workArea : Rect
  scaleFactor : ℚ
deriving DecidableEq, Repr

/-- One element of the array returned by
`ipcMain.handle('get-screen-info')` (src/electron/main.js lines 66-75):
by construction of the map callback the record has exactly the fields
id, bounds, workArea, scaleFactor and primary. -/
structure ScreenInfo where
  id : Nat
  bounds : Rect
  workArea : Rect
  scaleFactor : ℚ
  primary : Bool
deriving DecidableEq, Repr

/-- Embedding of the `get-screen-info` IPC handler
(src/electron/main.js lines 66-75).  `displays` is
`screen.getAllDisplays()` and `primaryDisplay` is
`screen.getPrimaryDisplay()`; the handler maps each display to a record
whose `primary` field is the equality test
`display === screen.getPrimaryDisplay()`. -/
def getScreenInfo (displays : List Display) (primaryDisplay : Display) :
    List ScreenInfo :=
  displays.map fun d =>
    { id := d.id, bounds := d.bounds, workArea := d.workArea,
      scaleFactor := d.scaleFactor, primary := d == primaryDisplay }

/-- Embedding of the `will-navigate` guard installed by
`app.on('web-contents-created')` (src/electron/main.js lines 94-102).
`origin` is `new URL(navigationUrl).origin`.  The handler calls
`event.preventDefault()` exactly when the origin differs from
http://localhost:3000 and the URL does not start with file://;
the result `true` means navigation is prevented. -/
def willNavigatePrevents (origin navigationUrl : String) : Bool :=
  origin != "http://localhost:3000" && !(navigationUrl.startsWith "file://")

/-! ### Electron preload bridge (src/electron/preload.js) -/

/-- The renderer-side ipc listener table: one entry per registered
listener, keyed by channel name; callbacks are identified by a number. -/
abbrev ListenerTable := List (String × Nat)

/-- Embedding of `ipcRenderer.removeAllListeners(channel)`: drops every
entry registered on the given channel. -/
def removeAllListeners (table : ListenerTable) (channel : String) :
    ListenerTable :=
  table.filter fun e => e.1 != channel

/-- Embedding of `ipcRenderer.on(channel, callback)`: appends one
listener entry for the channel. -/
def ipcOn (table : ListenerTable) (channel : String) (cb : Nat) :
    ListenerTable :=
  table ++ [(channel, cb)]

/-- Embedding of `onScreenCapture` (src/electron/preload.js lines
20-23): removes all 'screen-capture' listeners, then registers the new
callback. -/
def onScreenCapture (table : ListenerTable) (cb : Nat) : ListenerTable :=
  ipcOn (removeAllListeners table "screen-capture") "screen-capture" cb

/-- Embedding of `onPatternDetected` (src/electron/preload.js lines
25-28): removes all 'pattern-detected' listeners, then registers the
new callback. -/
def onPatternDetected (table : ListenerTable) (cb : Nat) : ListenerTable :=
  ipcOn (removeAllListeners table "pattern-detected") "pattern-detected" cb

/-- Number of listeners registered on a channel. -/
def listenerCount (table : ListenerTable) (channel : String) : Nat :=
  (table.filter fun e => e.1 == channel).length

/-! ### Configuration defaults (.env.example) -/

/-- Default technical weight, `TECHNICAL_WEIGHT=0.7` in .env.example
line 31. -/
def TECHNICAL_WEIGHT : ℚ := 7 / 10

/-- Default sentiment weight, `SENTIMENT_WEIGHT=0.3` in .env.example
line 30. -/
def SENTIMENT_WEIGHT : ℚ := 3 / 10

/-- Default pattern confidence floor,
`PATTERN_CONFIDENCE_THRESHOLD=0.7` in .env.example line 29. -/
def PATTERN_CONFIDENCE_THRESHOLD : ℚ := 7 / 10

/-- The numeric defaults of the AI model settings block of
.env.example (lines 28-31). -/
def envDefaults : List (String × ℚ) :=
  [("PATTERN_CONFIDENCE_THRESHOLD", PATTERN_CONFIDENCE_THRESHOLD),
   ("SENTIMENT_WEIGHT", SENTIMENT_WEIGHT),
   ("TECHNICAL_WEIGHT", TECHNICAL_WEIGHT)]

/-- Environment-variable style configuration lookup: an externally
supplied override wins, otherwise the .env.example default applies. -/
def configValue (overrides : List (String × ℚ)) (key : String) :
    Option ℚ :=
  match overrides.lookup key with
  | some v => some v
  | none => envDefaults.lookup key

/-! ### Capture-to-prediction pipeline, modelled from the spec

The pipeline of spec sections 4.1-4.7 is not present as code in the
repository (only its desktop shell and configuration are), so the
definitions below are modelled from the specification text. -/

/-- Modelled from the spec: the Candle record (section 3) — OHLC prices,
optional volume, timestamp and sequence index. -/
structure Candle where
  openPrice : ℚ
  highPrice : ℚ
  lowPrice : ℚ
  closePrice : ℚ
  volume : Option ℚ
  timestamp : Nat
  index : Nat
deriving DecidableEq, Repr, Inhabited

/-- Modelled from the spec: the supported structural pattern kinds
(sections 2 and 4.4). -/
inductive PatternKind
  | doubleTop
  | doubleBottom
  | headShoulders
  | triangle
  | flag
deriving DecidableEq, Repr

/-- Modelled from the spec: PatternFinding (section 3) — kind, span into
the candle sequence, confidence and key price levels. -/
structure PatternFinding where
  kind : PatternKind
  spanStart : Nat
  spanEnd : Nat
  confidence : ℚ
  keyLevels : List ℚ
deriving DecidableEq, Repr

/-- Modelled from the spec: LevelZone (section 3) — price, strength as
touch count, last touch timestamp. -/
structure LevelZone where
  price : ℚ
  strength : Nat
  lastTouchTimestamp : Nat
deriving DecidableEq, Repr

/-- Tolerance band for clustering extrema into zones and for comparing
the two maxima of a double top (an implementation-tunable parameter per
spec section 9). -/
def zoneTolerance : ℚ := 1 / 100

/-- Minimum level strength below which a zone is discarded (spec
section 4.4, configurable per section 6). -/
def minLevelStrength : Nat := 2

/-- Minimum retracement between the two maxima of a double top (the X%
of spec section 4.4; implementation-tunable per section 9). -/
def retracementFloor : ℚ := 5 / 100

/-- Candle at position i of the window (default candle out of range). -/
def getC (candles : List Candle) (i : Nat) : Candle :=
  candles.getD i default

/-- Modelled from the spec: a swing high — a candle whose high exceeds
both neighbours (section 4.4, level detection on local extrema). -/
def isSwingHigh (candles : List Candle) (i : Nat) : Bool :=
  decide (0 < i) && decide (i + 1 < candles.length) &&
  decide ((getC candles (i - 1)).highPrice < (getC candles i).highPrice) &&
  decide ((getC candles (i + 1)).highPrice < (getC candles i).highPrice)

/-- Modelled from the spec: a swing low — a candle whose low is below
both neighbours. -/
def isSwingLow (candles : List Candle) (i : Nat) : Bool :=
  decide (0 < i) && decide (i + 1 < candles.length) &&
  decide ((getC candles i).lowPrice < (getC candles (i - 1)).lowPrice) &&
  decide ((getC candles i).lowPrice < (getC candles (i + 1)).lowPrice)

/-- The swing extrema of the window as (price, timestamp) pairs. -/
def swingExtrema (candles : List Candle) : List (ℚ × Nat) :=
  (List.range candles.length).filterMap fun i =>
    if isSwingHigh candles i then
      some ((getC candles i).highPrice, (getC candles i).timestamp)
    else if isSwingLow candles i then
      some ((getC candles i).lowPrice, (getC candles i).timestamp)
    else none

/-- Extrema lying within the tolerance band of a price (the touches of
that zone). -/
def touchesNear (p : ℚ) (ext : List (ℚ × Nat)) : List (ℚ × Nat) :=
  ext.filter fun e => decide (|e.1 - p| ≤ zoneTolerance * |p|)

/-- Modelled from the spec: level detection (section 4.4) — cluster
swing extrema within a tolerance band into zones, strength is the touch
count, zones below the minimum strength are discarded.  A pure function
of the candle window. -/
def levels (candles : List Candle) : List LevelZone :=
  let ext := swingExtrema candles
  (ext.map fun e =>
    let ts := touchesNear e.1 ext
    { price := e.1, strength := ts.length,
      lastTouchTimestamp := (ts.map Prod.snd).foldr max 0 }).filter
    fun z => decide (minLevelStrength ≤ z.strength)

/-- Indices of swing highs of the window. -/
def swingHighIdx (candles : List Candle) : List Nat :=
  (List.range candles.length).filter (isSwingHigh candles)

/-- Indices of swing lows of the window. -/
def swingLowIdx (candles : List Candle) : List Nat :=
  (List.range candles.length).filter (isSwingLow candles)

/-- Lowest low strictly between positions i and j (the intervening
trough of a double top). -/
def minLowBetween (candles : List Candle) (i j : Nat) : ℚ :=
  ((List.range candles.length).filter
    fun k => decide (i < k) && decide (k < j)).foldr
    (fun k acc => min (getC candles k).lowPrice acc)
    (getC candles i).highPrice

/-- Highest high strictly between positions i and j (the intervening
peak of a double bottom). -/
def maxHighBetween (candles : List Candle) (i j : Nat) : ℚ :=
  ((List.range candles.length).filter
    fun k => decide (i < k) && decide (k < j)).foldr
    (fun k acc => max (getC candles k).highPrice acc)
    (getC candles i).lowPrice

/-- Whether some close after position j breaks below the given level
(the confirmed break of a double top). -/
def breaksBelowAfter (candles : List Candle) (j : Nat) (level : ℚ) : Bool :=
  ((List.range candles.length).filter fun k => decide (j < k)).any
    fun k => decide ((getC candles k).closePrice < level)

/-- Whether some close after position j breaks above the given level. -/
def breaksAboveAfter (candles : List Candle) (j : Nat) (level : ℚ) : Bool :=
  ((List.range candles.length).filter fun k => decide (j < k)).any
    fun k => decide (level < (getC candles k).closePrice)

/-- Modelled from the spec: the double-top test of section 4.4 — two
comparable local maxima, a retracement of at least `retracementFloor`
to the intervening trough, and a confirmed break below that trough;
confidence grows as the two maxima match more closely. -/
def doubleTopAt (candles : List Candle) (i j : Nat) : Option PatternFinding :=
  let hi := (getC candles i).highPrice
  let hj := (getC candles j).highPrice
  let trough := minLowBetween candles i j
  if 0 < hi ∧ |hi - hj| ≤ zoneTolerance * hi ∧
      retracementFloor * hi ≤ hi - trough ∧
      breaksBelowAfter candles j trough = true then
    some { kind := .doubleTop, spanStart := i, spanEnd := j,
           confidence := 1 - |hi - hj| / (zoneTolerance * hi),
           keyLevels := [trough, max hi hj] }
  else none

/-- Modelled from the spec: the mirrored double-bottom test. -/
def doubleBottomAt (candles : List Candle) (i j : Nat) : Option PatternFinding :=
  let li := (getC candles i).lowPrice
  let lj := (getC candles j).lowPrice
  let peak := maxHighBetween candles i j
  if 0 < li ∧ |li - lj| ≤ zoneTolerance * li ∧
      retracementFloor * li ≤ peak - li ∧
      breaksAboveAfter candles j peak = true then
    some { kind := .doubleBottom, spanStart := i, spanEnd := j,
           confidence := 1 - |li - lj| / (zoneTolerance * li),
           keyLevels := [min li lj, peak] }
  else none

/-- Double-top detector: scans ordered pairs of swing highs. -/
def detectDoubleTop (candles : List Candle) : List PatternFinding :=
  let hs := swingHighIdx candles
  hs.flatMap fun i => hs.filterMap fun j =>
    if i < j then doubleTopAt candles i j else none

/-- Double-bottom detector: scans ordered pairs of swing lows. -/
def detectDoubleBottom (candles : List Candle) : List PatternFinding :=
  let ls := swingLowIdx candles
  ls.flatMap fun i => ls.filterMap fun j =>
    if i < j then doubleBottomAt candles i j else none

/-- Modelled from the spec: the fixed registry of independent, pure
structural pattern detectors (sections 4.4 and 9).  The spec gives a
concrete algorithm only for the double top; the registry holds the
double-top detector and its mirrored double-bottom counterpart, each a
pure function of the read-only candle window. -/
def patternDetectors : List (List Candle → List PatternFinding) :=
  [detectDoubleTop, detectDoubleBottom]

/-- Modelled from the spec: `detect(candles)` (section 4.4) — run every
registered detector over the same candle window and collect the
findings.  A pure function of the candle window: it takes no other
argument and reads no state. -/
def detect (candles : List Candle) : List PatternFinding :=
  patternDetectors.flatMap fun d => d candles

/-- Modelled from the spec: the five prediction timeframes (section 3). -/
inductive Timeframe
  | m15
  | h1
  | h4
  | d1
  | d2
deriving DecidableEq, Repr

/-- The five timeframes in order: 15m, 1h, 4h, 1d, 2d. -/
def allTimeframes : List Timeframe := [.m15, .h1, .h4, .d1, .d2]

/-- Horizon of a timeframe in minutes. -/
def horizonMinutes : Timeframe → Nat
  | .m15 => 15
  | .h1 => 60
  | .h4 => 240
  | .d1 => 1440
  | .d2 => 2880

/-- Display name of a timeframe. -/
def timeframeName : Timeframe → String
  | .m15 => "15m"
  | .h1 => "1h"
  | .h4 => "4h"
  | .d1 => "1d"
  | .d2 => "2d"

/-- Modelled from the spec: the external signal kinds (section 3). -/
inductive SignalKind
  | sentiment
  | insider
  | fundamental
deriving DecidableEq, Repr

/-- Modelled from the spec: ExternalSignal (section 3). -/
structure ExternalSignal where
  symbol : String
  kind : SignalKind
  score : ℚ
  freshness : Nat
  sourceConfidence : ℚ
deriving DecidableEq, Repr

/-- Modelled from the spec: TimeframePrediction (section 3) — price
range, probability of an upward move and a textual explanation. -/
structure TimeframePrediction where
  timeframe : Timeframe
  priceMin : ℚ
  priceMax : ℚ
  priceAvg : ℚ
  probabilityUp : ℚ
  explanation : String
deriving DecidableEq, Repr

/-- Directional bias of a pattern kind (+1 bullish, -1 bearish). -/
def patternDirection : PatternKind → ℚ
  | .doubleTop => -1
  | .doubleBottom => 1
  | .headShoulders => -1
  | .triangle => 1
  | .flag => 1

/-- Modelled from the spec: the pattern-derived directional bias of
section 4.6 — findings above the confidence floor vote up or down,
weighted by confidence. -/
def technicalBias (findings : List PatternFinding) : ℚ :=
  ((findings.filter fun f =>
      decide (PATTERN_CONFIDENCE_THRESHOLD ≤ f.confidence)).map
    fun f => patternDirection f.kind * f.confidence).sum

/-- Aggregate external-signal score: confidence-weighted mean of the
available signals; absent when no signal kind is available (section 9's
explicit present/absent representation). -/
def aggregateSignalScore (signals : List ExternalSignal) : Option ℚ :=
  match signals with
  | [] => none
  | _ =>
    some (((signals.map fun s => s.score * s.sourceConfidence).sum) /
      (signals.length : ℚ))

/-- Modelled from the spec: the weighted combination of section 4.6.
When signal kinds are missing their weight is redistributed onto the
remaining contributions: with no signals at all, the whole weight falls
on the technical side (renormalizing the 0.7/0.3 split to 1.0). -/
def fusedScore (findings : List PatternFinding)
    (signals : List ExternalSignal) : ℚ :=
  match aggregateSignalScore signals with
  | some sig =>
    TECHNICAL_WEIGHT * technicalBias findings + SENTIMENT_WEIGHT * sig
  | none =>
    (TECHNICAL_WEIGHT + SENTIMENT_WEIGHT) * technicalBias findings

/-- Modelled from the spec: the bounded squashing function of section
4.6 mapping the fused directional score into (0,1). -/
def squash (x : ℚ) : ℚ := 1 / 2 + x / (2 * (1 + |x|))

/-- Square-root-of-time scaling of the range width (section 4.6):
integer square root of the horizon in minutes. -/
def sqrtScale (tf : Timeframe) : ℚ := (Nat.sqrt (horizonMinutes tf) : ℚ)

/-- Nearest support: the largest detected level at or below the current
price. -/
def nearestSupport (price : ℚ) (zones : List LevelZone) : Option ℚ :=
  ((zones.map LevelZone.price).filter fun p => decide (p ≤ price)).max?

/-- Nearest resistance: the smallest detected level at or above the
current price. -/
def nearestResistance (price : ℚ) (zones : List LevelZone) : Option ℚ :=
  ((zones.map LevelZone.price).filter fun p => decide (price ≤ p)).min?

/-- Largest element of a list by a rational measure (top-1 selection of
the explanation templating, section 4.6). -/
def argmaxBy {α : Type} (f : α → ℚ) : List α → Option α
  | [] => none
  | x :: xs =>
    match argmaxBy f xs with
    | none => some x
    | some y => if f y ≤ f x then some x else some y

/-- Display name of a pattern kind. -/
def patternKindName : PatternKind → String
  | .doubleTop => "double top"
  | .doubleBottom => "double bottom"
  | .headShoulders => "head and shoulders"
  | .triangle => "triangle"
  | .flag => "flag"

/-- Display name of a signal kind. -/
def signalKindName : SignalKind → String
  | .sentiment => "sentiment"
  | .insider => "insider activity"
  | .fundamental => "fundamentals"

/-- Modelled from the spec: deterministic explanation templating
(section 4.6) — the top-1 pattern by confidence and the top-1 signal by
absolute contribution, rendered into a sentence. -/
def explanationText (findings : List PatternFinding)
    (signals : List ExternalSignal) (tf : Timeframe) : String :=
  let pat :=
    match argmaxBy (fun f => f.confidence) findings with
    | some f => patternKindName f.kind
    | none => "no dominant pattern"
  let sig :=
    match argmaxBy (fun s => |s.score * s.sourceConfidence|) signals with
    | some s => signalKindName s.kind
    | none => "no external signal"
  "dominant pattern: " ++ pat ++ "; dominant signal: " ++ sig ++
    " on the " ++ timeframeName tf ++ " horizon"

/-- Modelled from the spec: one TimeframePrediction of section 4.6.
The average sits at the current price; the range reaches one
volatility-scaled width away, clipped to the nearest relevant
support/resistance level; the probability is the fused score squashed
into (0,1). -/
def predictionFor (findings : List PatternFinding) (zones : List LevelZone)
    (signals : List ExternalSignal) (currentPrice volatility : ℚ)
    (tf : Timeframe) : TimeframePrediction :=
  let w := volatility * sqrtScale tf
  let lo :=
    match nearestSupport currentPrice zones with
    | some s => max (currentPrice - w) s
    | none => currentPrice - w
  let hi :=
    match nearestResistance currentPrice zones with
    | some r => min (currentPrice + w) r
    | none => currentPrice + w
  { timeframe := tf, priceMin := lo, priceMax := hi,
    priceAvg := currentPrice,
    probabilityUp := squash (fusedScore findings signals),
    explanation := explanationText findings signals tf }

/-- Modelled from the spec: `fuse(findings, levels, signals)` (section
4.6) — one prediction per timeframe, in the fixed timeframe order. -/
def fuse (findings : List PatternFinding) (zones : List LevelZone)
    (signals : List ExternalSignal) (currentPrice volatility : ℚ) :
    List TimeframePrediction :=
  allTimeframes.map
    (predictionFor findings zones signals currentPrice volatility)

/-- Modelled from the spec: AnalysisResult (section 3). -/
structure AnalysisResult where
  symbol : String
  regionId : Nat
  cycleTimestamp : Nat
  findings : List PatternFinding
  levels : List LevelZone
  predictions : List TimeframePrediction
deriving DecidableEq, Repr

/-- Modelled from the spec: the AnalysisResult published at the end of
a completed cycle (sections 3 and 4.7) — its predictions are exactly
the Fusion Engine's output for the cycle. -/
def mkAnalysisResult (symbol : String) (regionId : Nat) (ts : Nat)
    (findings : List PatternFinding) (zones : List LevelZone)
    (signals : List ExternalSignal) (currentPrice volatility : ℚ) :
    AnalysisResult :=
  { symbol := symbol, regionId := regionId, cycleTimestamp := ts,
    findings := findings, levels := zones,
    predictions := fuse findings zones signals currentPrice volatility }

/-- Modelled from the spec: Dispatcher state (section 4.7) — the set of
(symbol, region) keys with a cycle in flight, and the published
results. -/
structure DispatcherState where
  inFlight : List (String × Nat)
  published : List AnalysisResult
deriving DecidableEq, Repr

/-- Modelled from the spec: a capture tick reaching the Dispatcher
(section 4.7).  A tick for a key still being processed is dropped, not
queued; otherwise a cycle for that key starts. -/
def dispatchTick (s : DispatcherState) (key : String × Nat) :
    DispatcherState :=
  if key ∈ s.inFlight then s
  else { s with inFlight := key :: s.inFlight }

/-- Modelled from the spec: completion of an in-flight cycle (section
4.7) — the result is published and the key leaves the in-flight set. -/
def dispatchComplete (s : DispatcherState) (key : String × Nat)
    (result : AnalysisResult) : DispatcherState :=
  if key ∈ s.inFlight then
    { inFlight := s.inFlight.erase key,
      published := result :: s.published }
  else s

/-- Modelled from the spec: the escalation threshold of sections 4.1
and 7 — N consecutive capture failures escalate to a paused state. -/
def MAX_CONSECUTIVE_FAILURES : Nat := 3

/-- Modelled from the spec: per-region capture loop state (sections 4.1
and 7) — the count of consecutive capture failures and whether the loop
is paused. -/
structure CaptureLoopState where
  consecutiveFailures : Nat
  paused : Bool
deriving DecidableEq, Repr

/-- Modelled from the spec: one capture tick of the loop (sections 4.1
and 7).  A paused loop ignores ticks until an external reset; a
successful capture clears the failure count; a failed capture is
retried at the next tick, and on reaching `MAX_CONSECUTIVE_FAILURES`
consecutive failures the loop pauses. -/
def captureLoopTick (s : CaptureLoopState) (captureSucceeded : Bool) :
    CaptureLoopState :=
  if s.paused then s
  else if captureSucceeded then { consecutiveFailures := 0, paused := false }
  else
    let f := s.consecutiveFailures + 1
    { consecutiveFailures := f,
      paused := decide (MAX_CONSECUTIVE_FAILURES ≤ f) }

/-- Modelled from the spec: the external reset that clears the paused
state (sections 4.1 and 7). -/
def resetCaptureLoop (_s : CaptureLoopState) : CaptureLoopState :=
  { consecutiveFailures := 0, paused := false }

/-- A concrete five-candle window used to evaluate the pipeline on
explicit input. -/
def sampleWindow : List Candle :=
  [⟨100, 105, 99, 104, some 10, 0, 0⟩,
   ⟨104, 110, 103, 108, some 12, 60, 1⟩,
   ⟨108, 109, 101, 102, some 9, 120, 2⟩,
   ⟨102, 110, 100, 107, some 11, 180, 3⟩,
   ⟨107, 108, 96, 97, some 14, 240, 4⟩]

/-! ### Theorems for the Electron shell and configuration claims -/

/-- Helper: removing all listeners for a channel leaves zero listeners
on that channel. -/
theorem listenerCount_removeAllListeners (ch : String) :
    ∀ t : ListenerTable, listenerCount (removeAllListeners t ch) ch = 0 := by
  intro t
  rw [listenerCount, removeAllListeners, List.filter_filter]
  rw [List.length_eq_zero, List.filter_eq_nil_iff]
  intro e _
  by_cases h : e.1 = ch <;> simp [h]

/-- Helper: listener counts add over concatenation of tables. -/
theorem listenerCount_append (t₁ t₂ : ListenerTable) (ch : String) :
    listenerCount (t₁ ++ t₂) ch = listenerCount t₁ ch + listenerCount t₂ ch := by
  simp [listenerCount, List.filter_append]

/-- C1: the claim states that capture either returns a Frame or fails
with a capture error, and that an off-screen region is reported as an
error, never as a successful result.  The handler in
src/electron/main.js is a placeholder: evaluated at a region far
off-screen it still answers `success := true`, so the error path the
claim requires does not exist in the code. -/
theorem offscreen_region_reported_as_success :
    (captureScreenRegion
      { x := -5000, y := -5000, width := 10, height := 10 }
      1700000000).success = true := rfl

/-- C6: the claim states every successful capture produces a Frame with
a raw pixel buffer, a capture timestamp and the source region id.  The
handler's result is exactly the record
`{ success := true, region, timestamp }` for every region: it carries
the region and a timestamp but no pixel buffer at all. -/
theorem capture_result_lacks_pixel_buffer (region : Region) (now : Nat) :
    captureScreenRegion region now =
      { success := true, region := region, timestamp := now } := rfl

/-- C7: the technical and sentiment fusion weights are configurable
(an external override takes effect), default to 0.7 and 0.3, and the
default pair sums exactly to 1. -/
theorem fusion_weights_default_and_sum :
    configValue [] "TECHNICAL_WEIGHT" = some TECHNICAL_WEIGHT ∧
    configValue [] "SENTIMENT_WEIGHT" = some SENTIMENT_WEIGHT ∧
    TECHNICAL_WEIGHT = 7 / 10 ∧
    SENTIMENT_WEIGHT = 3 / 10 ∧
    TECHNICAL_WEIGHT + SENTIMENT_WEIGHT = 1 ∧
    (∀ overrides key v,
      configValue ((key, v) :: overrides) key = some v) := by
  refine ⟨rfl, rfl, rfl, rfl, by norm_num [TECHNICAL_WEIGHT, SENTIMENT_WEIGHT], ?_⟩
  intro overrides key v
  simp [configValue, List.lookup]

/-- C8: for every will-navigate event, navigation proceeds (is not
prevented) exactly when the target URL's origin is
http://localhost:3000 or the URL starts with file://; every other URL
is prevented. -/
theorem navigation_prevented_unless_allowed (origin url : String) :
    willNavigatePrevents origin url = false ↔
      (origin = "http://localhost:3000" ∨ url.startsWith "file://" = true) := by
  simp [willNavigatePrevents, Decidable.or_iff_not_imp_left]

/-- C9: after a call to onScreenCapture (resp. onPatternDetected)
exactly one listener is registered on the 'screen-capture'
(resp. 'pattern-detected') channel, whatever listeners were registered
before, so repeated registration never accumulates listeners. -/
theorem bridge_registration_single_listener (table : ListenerTable) (cb : Nat) :
    listenerCount (onScreenCapture table cb) "screen-capture" = 1 ∧
    listenerCount (onPatternDetected table cb) "pattern-detected" = 1 := by
  constructor
  · rw [onScreenCapture, ipcOn, listenerCount_append,
      listenerCount_removeAllListeners]
    rfl
  · rw [onPatternDetected, ipcOn, listenerCount_append,
      listenerCount_removeAllListeners]
    rfl

/-- C10: get-screen-info returns one record per connected display; each
record carries the source display's id, bounds, workArea and
scaleFactor, with `primary` true exactly when that display equals the
primary display; and every display contributes its record.  (The
`ScreenInfo` structure has exactly the five fields id, bounds,
workArea, scaleFactor, primary, matching the object literal built by
the handler.) -/
theorem get_screen_info_per_display (displays : List Display)
    (pd : Display) :
    (getScreenInfo displays pd).length = displays.length ∧
    (∀ r ∈ getScreenInfo displays pd, ∃ d ∈ displays,
      r.id = d.id ∧ r.bounds = d.bounds ∧ r.workArea = d.workArea ∧
      r.scaleFactor = d.scaleFactor ∧ (r.primary = true ↔ d = pd)) ∧
    (∀ d ∈ displays,
      ({ id := d.id, bounds := d.bounds, workArea := d.workArea,
         scaleFactor := d.scaleFactor, primary := d == pd } : ScreenInfo) ∈
        getScreenInfo displays pd) := by
  refine ⟨by simp [getScreenInfo], ?_, ?_⟩
  · intro r hr
    rcases List.mem_map.mp hr with ⟨d, hd, hrd⟩
    exact ⟨d, hd, by simp [← hrd], by simp [← hrd], by simp [← hrd],
      by simp [← hrd], by simp [← hrd]⟩
  · intro d hd
    exact List.mem_map.mpr ⟨d, hd, rfl⟩

/-! ### Theorems for the pipeline claims -/

/-- Helper: the timeframe field of a prediction is the timeframe it was
built for. -/
theorem predictionFor_timeframe (findings : List PatternFinding)
    (zones : List LevelZone) (signals : List ExternalSignal)
    (currentPrice volatility : ℚ) (tf : Timeframe) :
    (predictionFor findings zones signals currentPrice volatility
      tf).timeframe = tf := rfl

/-- Helper: a nearest support lies at or below the current price. -/
theorem nearestSupport_le (price : ℚ) (zones : List LevelZone) (s : ℚ)
    (h : nearestSupport price zones = some s) : s ≤ price := by
  rw [nearestSupport] at h
  have hmem := List.max?_mem (fun a b => max_choice a b) h
  have := (List.mem_filter.mp hmem).2
  simpa using this

/-- Helper: a nearest resistance lies at or above the current price. -/
theorem le_nearestResistance (price : ℚ) (zones : List LevelZone) (r : ℚ)
    (h : nearestResistance price zones = some r) : price ≤ r := by
  rw [nearestResistance] at h
  have hmem := List.min?_mem (fun a b => min_choice a b) h
  have := (List.mem_filter.mp hmem).2
  simpa using this

/-- Helper: the squashing function lands in [0, 1]. -/
theorem squash_mem_unit (x : ℚ) : 0 ≤ squash x ∧ squash x ≤ 1 := by
  have h2 : (0 : ℚ) < 2 * (1 + |x|) := by positivity
  have hxle : x ≤ |x| := le_abs_self x
  have hxge : -|x| ≤ x := neg_abs_le x
  constructor
  · have hlow : -(1 / 2 : ℚ) ≤ x / (2 * (1 + |x|)) := by
      rw [le_div_iff₀ h2]
      nlinarith
    rw [squash]
    linarith
  · have hhigh : x / (2 * (1 + |x|)) ≤ 1 / 2 := by
      rw [div_le_iff₀ h2]
      nlinarith
    rw [squash]
    linarith

/-- Helper: the bounds the fusion contract requires, for one
prediction. -/
theorem predictionFor_wellformed (findings : List PatternFinding)
    (zones : List LevelZone) (signals : List ExternalSignal)
    (currentPrice volatility : ℚ) (tf : Timeframe)
    (hv : 0 ≤ volatility) :
    (predictionFor findings zones signals currentPrice volatility
        tf).priceMin ≤
      (predictionFor findings zones signals currentPrice volatility
        tf).priceAvg ∧
    (predictionFor findings zones signals currentPrice volatility
        tf).priceAvg ≤
      (predictionFor findings zones signals currentPrice volatility
        tf).priceMax ∧
    0 ≤ (predictionFor findings zones signals currentPrice volatility
        tf).probabilityUp ∧
    (predictionFor findings zones signals currentPrice volatility
        tf).probabilityUp ≤ 1 := by
  have hw : 0 ≤ volatility * sqrtScale tf := by
    have : (0 : ℚ) ≤ sqrtScale tf := by
      rw [sqrtScale]; positivity
    exact mul_nonneg hv this
  refine ⟨?_, ?_, ?_, ?_⟩
  · cases hns : nearestSupport currentPrice zones with
    | none => simp [predictionFor, hns]; linarith
    | some s =>
      simp [predictionFor, hns]
      exact ⟨by linarith, nearestSupport_le _ _ _ hns⟩
  · cases hnr : nearestResistance currentPrice zones with
    | none => simp [predictionFor, hnr]; linarith
    | some r =>
      simp [predictionFor, hnr]
      exact ⟨by linarith, le_nearestResistance _ _ _ hnr⟩
  · exact (squash_mem_unit _).1
  · exact (squash_mem_unit _).2

/-- C2: every AnalysisResult published by a completed cycle carries
predictions for exactly the five timeframes 15m, 1h, 4h, 1d, 2d (one
each, in order), and every prediction satisfies
priceMin ≤ priceAvg ≤ priceMax with probabilityUp in [0, 1], for any
findings, levels, signals, current price and nonnegative volatility. -/
theorem analysis_result_predictions_wellformed
    (symbol : String) (regionId ts : Nat)
    (findings : List PatternFinding) (zones : List LevelZone)
    (signals : List ExternalSignal) (currentPrice volatility : ℚ)
    (hv : 0 ≤ volatility) :
    ((mkAnalysisResult symbol regionId ts findings zones signals
        currentPrice volatility).predictions.map
      TimeframePrediction.timeframe) = allTimeframes ∧
    ∀ p ∈ (mkAnalysisResult symbol regionId ts findings zones signals
        currentPrice volatility).predictions,
      p.priceMin ≤ p.priceAvg ∧ p.priceAvg ≤ p.priceMax ∧
      0 ≤ p.probabilityUp ∧ p.probabilityUp ≤ 1 := by
  constructor
  · show ((fuse findings zones signals currentPrice volatility).map
      TimeframePrediction.timeframe) = allTimeframes
    rw [fuse, List.map_map]
    have : TimeframePrediction.timeframe ∘
        predictionFor findings zones signals currentPrice volatility =
        id := by
      funext tf
      simp [predictionFor_timeframe]
    rw [this, List.map_id]
  · intro p hp
    have hp' : p ∈ (fuse findings zones signals currentPrice
        volatility) := hp
    rw [fuse] at hp'
    rcases List.mem_map.mp hp' with ⟨tf, _, rfl⟩
    exact predictionFor_wellformed findings zones signals currentPrice
      volatility tf hv

/-- Witness for C2 at concrete inputs: an empty-signal cycle for
"AAPL" at price 100 with volatility 2. -/
theorem analysis_result_predictions_wellformed_witness :
    ((mkAnalysisResult "AAPL" 0 0 [] [] [] 100 2).predictions.map
      TimeframePrediction.timeframe) = allTimeframes ∧
    ∀ p ∈ (mkAnalysisResult "AAPL" 0 0 [] [] [] 100 2).predictions,
      p.priceMin ≤ p.priceAvg ∧ p.priceAvg ≤ p.priceMax ∧
      0 ≤ p.probabilityUp ∧ p.probabilityUp ≤ 1 :=
  analysis_result_predictions_wellformed "AAPL" 0 0 [] [] [] 100 2
    (by norm_num)

/-- C3: at most one analysis cycle is in flight per (symbol, region):
a second capture tick arriving for a key already in flight leaves the
dispatcher unchanged (dropped, not queued), the in-flight set stays
duplicate-free, and two ticks within one cycle's processing time
followed by the cycle completion publish exactly one AnalysisResult. -/
theorem dispatcher_dedup (s : DispatcherState) (key : String × Nat)
    (result : AnalysisResult) (h : key ∉ s.inFlight)
    (hnd : s.inFlight.Nodup) :
    dispatchTick (dispatchTick s key) key = dispatchTick s key ∧
    (dispatchTick s key).inFlight.Nodup ∧
    (dispatchComplete (dispatchTick (dispatchTick s key) key) key
        result).published.length = s.published.length + 1 := by
  have h1 : dispatchTick s key =
      { s with inFlight := key :: s.inFlight } := by
    simp [dispatchTick, h]
  have h2 : dispatchTick { s with inFlight := key :: s.inFlight } key =
      { s with inFlight := key :: s.inFlight } := by
    simp [dispatchTick]
  refine ⟨by rw [h1, h2], ?_, ?_⟩
  · rw [h1]
    exact List.nodup_cons.mpr ⟨h, hnd⟩
  · rw [h1, h2]
    simp [dispatchComplete]

/-- Witness for C3: an idle dispatcher, the key ("AAPL", 0), and a
concrete result; after two ticks and one completion exactly one result
is published. -/
theorem dispatcher_dedup_witness :
    dispatchTick (dispatchTick ⟨[], []⟩ ("AAPL", 0)) ("AAPL", 0) =
      dispatchTick ⟨[], []⟩ ("AAPL", 0) ∧
    (dispatchTick (⟨[], []⟩ : DispatcherState) ("AAPL", 0)).inFlight.Nodup ∧
    (dispatchComplete (dispatchTick (dispatchTick ⟨[], []⟩ ("AAPL", 0))
        ("AAPL", 0)) ("AAPL", 0)
        (mkAnalysisResult "AAPL" 0 0 [] [] [] 100 1)).published.length =
      ([] : List AnalysisResult).length + 1 :=
  dispatcher_dedup ⟨[], []⟩ ("AAPL", 0)
    (mkAnalysisResult "AAPL" 0 0 [] [] [] 100 1)
    (by simp) List.nodup_nil

/-- C4: starting from a healthy capture loop, a single failed capture
does not pause the loop (the next tick is processed normally, and a
success clears the failure count), three consecutive failures escalate
to the paused state, a paused loop ignores every further tick until the
external reset, and the reset clears the pause. -/
theorem capture_failure_escalation (s : CaptureLoopState)
    (h0 : s.consecutiveFailures = 0) (hp : s.paused = false) :
    (captureLoopTick s false).paused = false ∧
    captureLoopTick (captureLoopTick s false) true =
      { consecutiveFailures := 0, paused := false } ∧
    (captureLoopTick (captureLoopTick (captureLoopTick s false) false)
        false).paused = true ∧
    (∀ (t : CaptureLoopState) (b : Bool), t.paused = true →
      captureLoopTick t b = t) ∧
    (resetCaptureLoop (captureLoopTick (captureLoopTick
        (captureLoopTick s false) false) false)).paused = false := by
  obtain ⟨f, p⟩ := s
  simp only at h0 hp
  subst h0
  subst hp
  refine ⟨by decide, by decide, by decide, ?_, by decide⟩
  intro t b ht
  obtain ⟨g, q⟩ := t
  simp only at ht
  subst ht
  simp [captureLoopTick]

/-- Witness for C4 at the fresh loop state. -/
theorem capture_failure_escalation_witness :
    (captureLoopTick ⟨0, false⟩ false).paused = false ∧
    captureLoopTick (captureLoopTick ⟨0, false⟩ false) true =
      { consecutiveFailures := 0, paused := false } ∧
    (captureLoopTick (captureLoopTick (captureLoopTick ⟨0, false⟩ false)
        false) false).paused = true ∧
    (∀ (t : CaptureLoopState) (b : Bool), t.paused = true →
      captureLoopTick t b = t) ∧
    (resetCaptureLoop (captureLoopTick (captureLoopTick
        (captureLoopTick ⟨0, false⟩ false) false) false)).paused = false :=
  capture_failure_escalation ⟨0, false⟩ rfl rfl

/-- C5: the Pattern Engine's detect and levels operations are pure
functions of the candle window alone: running them twice on identical
candle windows yields identical findings (confidences included) and
identical level zones. -/
theorem pattern_engine_pure (c₁ c₂ : List Candle) (h : c₁ = c₂) :
    detect c₁ = detect c₂ ∧ levels c₁ = levels c₂ := by
  subst h
  exact ⟨rfl, rfl⟩

/-- Witness for C5: two runs over the same concrete five-candle window
agree. -/
theorem pattern_engine_pure_witness :
    detect sampleWindow = detect sampleWindow ∧
    levels sampleWindow = levels sampleWindow :=
  pattern_engine_pure sampleWindow sampleWindow rfl
